import Mathlib

/-!
Verification of the marine-telemetry core of the yachtpit repository:
sentence parsers (AIS identification, GNSS position, radar), the bounded
message buffers of the transport receivers, the provider connect/receive
lifecycle, the file-replay pacing loop, and the AIS fan-out server's
upstream-stream lifecycle.  Rust strings are embedded as `List Char`,
`f64`/`f32` values as `ℚ`, machine integers as `ℕ` with explicit bounds,
and fallible operations as `Option`/`Except`.
-/

set_option maxRecDepth 40000

/-- The character list of a Rust string literal. -/
def chars (s : String) : List Char := s.data

/-- Embedding of Rust `str::starts_with(c: char)`. -/
def startsWithChar (c : Char) (s : List Char) : Bool :=
  match s with
  | [] => false
  | a :: _ => a == c

/-- Embedding of Rust `str::starts_with(pat: &str)` (first arg is the pattern). -/
def startsWithStr : List Char → List Char → Bool
  | [], _ => true
  | _ :: _, [] => false
  | p :: ps, c :: cs => p == c && startsWithStr ps cs

/-- Embedding of Rust `str::contains(pat: &str)` (first arg is the pattern). -/
def containsSub (pat : List Char) : List Char → Bool
  | [] => startsWithStr pat []
  | c :: rest => startsWithStr pat (c :: rest) || containsSub pat rest

/-- Embedding of Rust `str::contains(c: char)`. -/
def containsChar (c : Char) (s : List Char) : Bool :=
  s.any (fun a => a == c)

/-- Embedding of Rust `str::split(sep: char).collect::<Vec<_>>()`:
splitting an empty string yields one empty field, and separators at the
ends produce empty fields, exactly as in Rust. -/
def splitOnChar (sep : Char) : List Char → List (List Char)
  | [] => [[]]
  | c :: rest =>
    match splitOnChar sep rest with
    | [] => [[]]
    | f :: fs => if c = sep then [] :: f :: fs else (c :: f) :: fs

/-- Accumulator loop for a run of decimal digits; fails on a non-digit. -/
def natOfDigits : List Char → ℕ → Option ℕ
  | [], acc => some acc
  | c :: rest, acc =>
    if c.isDigit then natOfDigits rest (acc * 10 + (c.toNat - 48)) else none

/-- Embedding of Rust unsigned-integer parsing (`str::parse::<uN>` without
the width bound): at least one digit, an optional leading `+`. -/
def parseNatStr (s : List Char) : Option ℕ :=
  match s with
  | [] => none
  | '+' :: rest => if rest = [] then none else natOfDigits rest 0
  | _ => natOfDigits s 0

/-- Rust `str::parse::<u8>`. -/
def parseU8 (s : List Char) : Option ℕ :=
  (parseNatStr s).bind (fun n => if n ≤ 255 then some n else none)

/-- Rust `str::parse::<u16>`. -/
def parseU16 (s : List Char) : Option ℕ :=
  (parseNatStr s).bind (fun n => if n ≤ 65535 then some n else none)

/-- Rust `str::parse::<u32>`. -/
def parseU32 (s : List Char) : Option ℕ :=
  (parseNatStr s).bind (fun n => if n ≤ 4294967295 then some n else none)

/-- Digits of an unsigned decimal number with at most one `.`; the model of
Rust `str::parse::<f64>` restricted to plain decimal notation, valued in ℚ. -/
def parseRatUnsigned (s : List Char) : Option ℚ :=
  match splitOnChar '.' s with
  | [ip] =>
    if ip = [] then none else (natOfDigits ip 0).map (fun n => (n : ℚ))
  | [ip, fp] =>
    if ip = [] ∧ fp = [] then none
    else
      match natOfDigits ip 0, natOfDigits fp 0 with
      | some i, some f => some ((i : ℚ) + (f : ℚ) / ((10 : ℚ) ^ fp.length))
      | _, _ => none
  | _ => none

/-- Model of Rust `str::parse::<f64>` (and `::<f32>`) on plain decimal
notation: optional sign, digits, optional fractional part. -/
def parseRat (s : List Char) : Option ℚ :=
  match s with
  | '-' :: rest => (parseRatUnsigned rest).map (fun q => -q)
  | '+' :: rest => parseRatUnsigned rest
  | _ => parseRatUnsigned s

/-- Model of Rust signed-integer parsing (for `str::parse::<i8>`). -/
def parseIntStr (s : List Char) : Option ℤ :=
  match s with
  | '-' :: rest =>
    if rest = [] then none else (natOfDigits rest 0).map (fun n => -(n : ℤ))
  | _ => (parseNatStr s).map (fun n => (n : ℤ))

/-- Rust `str::parse::<i8>`. -/
def parseI8 (s : List Char) : Option ℤ :=
  (parseIntStr s).bind (fun n => if -128 ≤ n ∧ n ≤ 127 then some n else none)

/-- Decimal rendering of a natural number (Rust `ToString` on integers). -/
def natToChars (n : ℕ) : List Char := Nat.toDigits 10 n

/-- Decimal rendering of an integer. -/
def intToChars (n : ℤ) : List Char :=
  if n < 0 then '-' :: natToChars n.natAbs else natToChars n.natAbs

/-- Injective rendering of a rational, standing in for Rust's `f32`/`f64`
`ToString`; no claim depends on the exact digits produced. -/
def ratToChars (q : ℚ) : List Char :=
  (if q.num < 0 then ['-'] else []) ++ natToChars q.num.natAbs ++ '/' :: natToChars q.den

/-! ## GNSS position parser (`crates/datalink-provider/src/gpyes/mod.rs`) -/

/-- `LocationData` from gpyes/mod.rs; all fields optional, `Default` is all-`none`. -/
structure LocationData where
  latitude : Option ℚ := none
  longitude : Option ℚ := none
  altitude : Option ℚ := none
  speed : Option ℚ := none
  timestamp : Option (List Char) := none
  fix_quality : Option ℕ := none
  satellites : Option ℕ := none
deriving DecidableEq

namespace GnssParser

/-- The coordinate conversion block shared by all four latitude/longitude
cases of `parse_gpgga`/`parse_gprmc`:
`degrees = floor(raw/100); minutes = raw - degrees*100; degrees + minutes/60`. -/
def coordFromRaw (raw : ℚ) : ℚ :=
  let degrees : ℚ := (⌊raw / 100⌋ : ℤ)
  let minutes : ℚ := raw - degrees * 100
  degrees + minutes / 60

/-- The timestamp block: `if !parts[i].is_empty() { timestamp = Some(..) }`. -/
def setTimestamp (loc : LocationData) (p : List Char) : LocationData :=
  if p ≠ [] then { loc with timestamp := some p } else loc

/-- The latitude block of `parse_gpgga`/`parse_gprmc`: both the raw field and
the hemisphere field must be nonempty, the raw field must parse, and the
value is negated when the hemisphere field is `"S"`. -/
def setLatitude (loc : LocationData) (praw phemi : List Char) : LocationData :=
  if praw ≠ [] ∧ phemi ≠ [] then
    match parseRat praw with
    | some latRaw =>
      let lat := coordFromRaw latRaw
      { loc with latitude := some (if phemi = chars "S" then -lat else lat) }
    | none => loc
  else loc

/-- The longitude block: negated when the hemisphere field is `"W"`. -/
def setLongitude (loc : LocationData) (praw phemi : List Char) : LocationData :=
  if praw ≠ [] ∧ phemi ≠ [] then
    match parseRat praw with
    | some lonRaw =>
      let lon := coordFromRaw lonRaw
      { loc with longitude := some (if phemi = chars "W" then -lon else lon) }
    | none => loc
  else loc

/-- The fix-quality block: nonempty field parsed as `u8`, else left absent. -/
def setFixQuality (loc : LocationData) (p : List Char) : LocationData :=
  if p ≠ [] then
    match parseU8 p with
    | some q => { loc with fix_quality := some q }
    | none => loc
  else loc

/-- The satellite-count block: nonempty field parsed as `u8`, else left absent. -/
def setSatellites (loc : LocationData) (p : List Char) : LocationData :=
  if p ≠ [] then
    match parseU8 p with
    | some n => { loc with satellites := some n }
    | none => loc
  else loc

/-- The altitude block: nonempty field parsed as `f64`, else left absent. -/
def setAltitude (loc : LocationData) (p : List Char) : LocationData :=
  if p ≠ [] then
    match parseRat p with
    | some a => { loc with altitude := some a }
    | none => loc
  else loc

/-- The speed block of `parse_gprmc`: nonempty field parsed as `f64` knots. -/
def setSpeed (loc : LocationData) (p : List Char) : LocationData :=
  if p ≠ [] then
    match parseRat p with
    | some v => { loc with speed := some v }
    | none => loc
  else loc

/-- `GnssParser::parse_gpgga`: needs ≥ 15 fields, then fills whatever
individual fields are present and well-formed, always returning `some`. -/
def parseGpgga (parts : List (List Char)) : Option LocationData :=
  if parts.length < 15 then none
  else
    some (setAltitude
      (setSatellites
        (setFixQuality
          (setLongitude
            (setLatitude (setTimestamp {} (parts.getD 1 []))
              (parts.getD 2 []) (parts.getD 3 []))
            (parts.getD 4 []) (parts.getD 5 []))
          (parts.getD 6 []))
        (parts.getD 7 []))
      (parts.getD 9 []))

/-- `GnssParser::parse_gprmc`: needs ≥ 12 fields and validity flag `"A"`
(field 2), else `none`.  (In the Rust code the timestamp field is copied
before the validity check; since an invalid flag discards the whole
record, checking the flag first is observationally identical.) -/
def parseGprmc (parts : List (List Char)) : Option LocationData :=
  if parts.length < 12 then none
  else if parts.getD 2 [] ≠ chars "A" then none
  else
    some (setSpeed
      (setLongitude
        (setLatitude (setTimestamp {} (parts.getD 1 []))
          (parts.getD 3 []) (parts.getD 4 []))
        (parts.getD 5 []) (parts.getD 6 []))
      (parts.getD 7 []))

/-- `GnssParser::parse_sentence`: `$`-prefix check, comma split, dispatch on
the exact sentence id. -/
def parseSentence (s : List Char) : Option LocationData :=
  if s = [] ∨ startsWithChar '$' s = false then none
  else
    let parts := splitOnChar ',' s
    if parts = [] then none
    else
      let st := parts.headI
      if st = chars "$GPGGA" ∨ st = chars "$GNGGA" then parseGpgga parts
      else if st = chars "$GPRMC" ∨ st = chars "$GNRMC" then parseGprmc parts
      else none

end GnssParser

/-! ## DataMessage and the datalink vocabulary (`crates/datalink/src/lib.rs`) -/

/-- `DataMessage`: timestamps are seconds since the epoch, supplied as an
explicit `now` parameter wherever the Rust code calls `SystemTime::now()`;
the `data` map is an association list where the most recent insertion for a
key shadows older ones, matching `HashMap::insert`. -/
structure DataMessage where
  message_type : List Char
  source_id : List Char
  timestamp : ℕ
  payload : List Char
  data : List (List Char × List Char)
  signal_quality : Option ℕ
deriving DecidableEq

/-- `DataMessage::new`. -/
def DataMessage.new (now : ℕ) (mt si payload : List Char) : DataMessage :=
  ⟨mt, si, now, payload, [], none⟩

/-- `DataMessage::with_data` (consuming builder, overwrite-on-same-key). -/
def DataMessage.withData (m : DataMessage) (k v : List Char) : DataMessage :=
  { m with data := (k, v) :: m.data }

/-- `DataMessage::with_signal_quality`: clamped to at most 100. -/
def DataMessage.withSignalQuality (m : DataMessage) (q : ℕ) : DataMessage :=
  { m with signal_quality := some (min q 100) }

/-- `DataMessage::get_data`. -/
def DataMessage.getData (m : DataMessage) (k : List Char) : Option (List Char) :=
  (m.data.find? (fun kv => kv.1 == k)).map Prod.snd

/-- `DataLinkStatus`. -/
inductive DLStatus
  | connected
  | connecting
  | disconnected
  | error (reason : List Char)
deriving DecidableEq

/-- `DataLinkError`. -/
inductive DLError
  | connectionFailed (msg : List Char)
  | parseError (msg : List Char)
  | timeout
  | invalidConfig (msg : List Char)
  | transportError (msg : List Char)
deriving DecidableEq

/-- `DataLinkConfig`; `parameters` is the `HashMap<String,String>`, embedded
as an association list. -/
structure DLConfig where
  connection_type : List Char
  parameters : List (List Char × List Char)
  timeout : ℕ
  auto_reconnect : Bool
deriving DecidableEq

/-- `config.parameters.get(k)`. -/
def getParam (cfg : DLConfig) (k : List Char) : Option (List Char) :=
  (cfg.parameters.find? (fun kv => kv.1 == k)).map Prod.snd

/-! ## Receiver buffer insertions -/

/-- The insertion performed inside every GPS and AIS transport-receiver loop:
`queue.push_back(message); if queue.len() > 1000 { queue.pop_front(); }`. -/
def pushBounded (q : List α) (m : α) : List α :=
  if 1000 < (q ++ [m]).length then (q ++ [m]).tail else q ++ [m]

/-- The insertion performed inside every radar transport-receiver loop:
`queue.push_back(message);` with no capacity check. -/
def pushRadar (q : List α) (m : α) : List α := q ++ [m]

/-! ## AIS sentence parser (`crates/datalink-provider/src/ais/mod.rs`) -/

/-- `AisDataLinkProvider::parse_ais_sentence`. -/
def parseAisSentence (now : ℕ) (s : List Char) : Option DataMessage :=
  if startsWithChar '!' s = false ∧ startsWithChar '$' s = false then none
  else
    let parts := splitOnChar ',' s
    if parts.length < 6 then none
    else
      let st := parts.headI
      if containsSub (chars "AIVDM") st = false ∧ containsSub (chars "AIVDO") st = false then
        none
      else
        let m0 := DataMessage.new now (chars "AIS_SENTENCE") (chars "AIS_RECEIVER") s
        let m1 := ((((((m0.withData (chars "sentence_type") st).withData
          (chars "fragment_count") (parts.getD 1 [])).withData
          (chars "fragment_number") (parts.getD 2 [])).withData
          (chars "message_id") (parts.getD 3 [])).withData
          (chars "channel") (parts.getD 4 [])).withData
          (chars "payload") (parts.getD 5 []))
        let m2 := m1.withData (chars "timestamp") (natToChars now)
        some (m2.withSignalQuality (if containsChar '*' s then 90 else 70))

/-! ## GPS sentence parser (`crates/datalink-provider/src/gps/mod.rs`) -/

/-- The nine-way keyword test guarding `parse_gps_sentence`. -/
def isKnownGpsType (st : List Char) : Bool :=
  containsSub (chars "GPGGA") st || containsSub (chars "GPRMC") st ||
  containsSub (chars "GPGLL") st || containsSub (chars "GPVTG") st ||
  containsSub (chars "GPGSA") st || containsSub (chars "GPGSV") st ||
  containsSub (chars "GNRMC") st || containsSub (chars "GNGGA") st ||
  containsSub (chars "GNGLL") st

/-- The GGA branch of `parse_gps_sentence`: fields copied verbatim when at
least 15 fields are present. -/
def gpsGgaFields (m : DataMessage) (parts : List (List Char)) : DataMessage :=
  if 15 ≤ parts.length then
    (((((((((m.withData (chars "time") (parts.getD 1 [])).withData
      (chars "latitude") (parts.getD 2 [])).withData
      (chars "lat_direction") (parts.getD 3 [])).withData
      (chars "longitude") (parts.getD 4 [])).withData
      (chars "lon_direction") (parts.getD 5 [])).withData
      (chars "fix_quality") (parts.getD 6 [])).withData
      (chars "satellites") (parts.getD 7 [])).withData
      (chars "hdop") (parts.getD 8 [])).withData
      (chars "altitude") (parts.getD 9 [])).withData
      (chars "altitude_unit") (parts.getD 10 [])
  else m

/-- The RMC branch of `parse_gps_sentence`: fields, including the raw
`status` validity flag, copied verbatim when at least 12 fields are
present; no validity check is performed. -/
def gpsRmcFields (m : DataMessage) (parts : List (List Char)) : DataMessage :=
  if 12 ≤ parts.length then
    ((((((((m.withData (chars "time") (parts.getD 1 [])).withData
      (chars "status") (parts.getD 2 [])).withData
      (chars "latitude") (parts.getD 3 [])).withData
      (chars "lat_direction") (parts.getD 4 [])).withData
      (chars "longitude") (parts.getD 5 [])).withData
      (chars "lon_direction") (parts.getD 6 [])).withData
      (chars "speed") (parts.getD 7 [])).withData
      (chars "course") (parts.getD 8 [])).withData
      (chars "date") (parts.getD 9 [])
  else m

/-- The GLL branch of `parse_gps_sentence`. -/
def gpsGllFields (m : DataMessage) (parts : List (List Char)) : DataMessage :=
  if 7 ≤ parts.length then
    (((((m.withData (chars "latitude") (parts.getD 1 [])).withData
      (chars "lat_direction") (parts.getD 2 [])).withData
      (chars "longitude") (parts.getD 3 [])).withData
      (chars "lon_direction") (parts.getD 4 [])).withData
      (chars "time") (parts.getD 5 [])).withData
      (chars "status") (parts.getD 6 [])
  else m

/-- The fallback branch of `parse_gps_sentence`: every field stored under
`field_i`. -/
def gpsOtherFields (m : DataMessage) (parts : List (List Char)) : DataMessage :=
  parts.enum.foldl
    (fun acc p => acc.withData (chars "field_" ++ natToChars p.1) p.2) m

/-- `GpsDataLinkProvider::parse_gps_sentence`: `$` prefix, ≥ 3 fields, one of
nine known sentence keywords, branch dispatch in source order, then a
timestamp entry and signal quality 95/75 depending on a `*` suffix. -/
def parseGpsSentence (now : ℕ) (s : List Char) : Option DataMessage :=
  if startsWithChar '$' s = false then none
  else
    let parts := splitOnChar ',' s
    if parts.length < 3 then none
    else
      let st := parts.headI
      if isKnownGpsType st = false then none
      else
        let m0 := (DataMessage.new now (chars "GPS_SENTENCE")
          (chars "GPS_RECEIVER") s).withData (chars "sentence_type") st
        let m1 :=
          if containsSub (chars "GPGGA") st || containsSub (chars "GNGGA") st then
            gpsGgaFields m0 parts
          else if containsSub (chars "GPRMC") st || containsSub (chars "GNRMC") st then
            gpsRmcFields m0 parts
          else if containsSub (chars "GPGLL") st || containsSub (chars "GNGLL") st then
            gpsGllFields m0 parts
          else gpsOtherFields m0 parts
        let m2 := m1.withData (chars "timestamp") (natToChars now)
        some (m2.withSignalQuality (if containsChar '*' s then 95 else 75))

/-! ## Radar sentence parsers (`crates/datalink-provider/src/radar/mod.rs`) -/

/-- `RadarDataLinkProvider::parse_radar_target`. -/
def parseRadarTarget (now : ℕ) (s : List Char) : Option DataMessage :=
  let parts := splitOnChar ',' s
  if 6 ≤ parts.length ∧ parts.headI = chars "$RADTG" then
    let m0 := DataMessage.new now (chars "RADAR_TARGET") (chars "RADAR_RECEIVER") s
    let m1 := match parseRat (parts.getD 1 []) with
      | some range => m0.withData (chars "range_nm") (ratToChars range)
      | none => m0
    let m2 := match parseRat (parts.getD 2 []) with
      | some bearing => m1.withData (chars "bearing_deg") (ratToChars bearing)
      | none => m1
    let m3 := match parseRat (parts.getD 3 []) with
      | some speed => m2.withData (chars "speed_kts") (ratToChars speed)
      | none => m2
    let m4 := match parseRat (parts.getD 4 []) with
      | some course => m3.withData (chars "course_deg") (ratToChars course)
      | none => m3
    let m5 := match parseRat ((splitOnChar '*' (parts.getD 5 [])).headI) with
      | some cpa => m4.withData (chars "cpa_nm") (ratToChars cpa)
      | none => m4
    some (m5.withData (chars "sentence_type") (chars "$RADTG"))
  else none

/-- `RadarDataLinkProvider::parse_radar_scan`. -/
def parseRadarScan (now : ℕ) (s : List Char) : Option DataMessage :=
  let parts := splitOnChar ',' s
  if 6 ≤ parts.length ∧ parts.headI = chars "$RADSC" then
    let m0 := DataMessage.new now (chars "RADAR_SCAN") (chars "RADAR_RECEIVER") s
    let m1 := match parseRat (parts.getD 1 []) with
      | some sweep => m0.withData (chars "sweep_angle") (ratToChars sweep)
      | none => m0
    let m2 := match parseRat (parts.getD 2 []) with
      | some range => m1.withData (chars "range_nm") (ratToChars range)
      | none => m1
    let m3 := m2.withData (chars "gain") (parts.getD 3 [])
    let m4 := match parseI8 (parts.getD 4 []) with
      | some sc => m3.withData (chars "sea_clutter_db") (intToChars sc)
      | none => m3
    let m5 := m4.withData (chars "rain_clutter") ((splitOnChar '*' (parts.getD 5 [])).headI)
    some (m5.withData (chars "sentence_type") (chars "$RADSC"))
  else none

/-- `RadarDataLinkProvider::parse_radar_config`. -/
def parseRadarConfig (now : ℕ) (s : List Char) : Option DataMessage :=
  let parts := splitOnChar ',' s
  if 5 ≤ parts.length ∧ parts.headI = chars "$RADCF" then
    let m0 := DataMessage.new now (chars "RADAR_CONFIG") (chars "RADAR_RECEIVER") s
    let m1 := match parseRat (parts.getD 1 []) with
      | some range => m0.withData (chars "range_nm") (ratToChars range)
      | none => m0
    let m2 := m1.withData (chars "gain") (parts.getD 2 [])
    let m3 := match parseI8 (parts.getD 3 []) with
      | some sc => m2.withData (chars "sea_clutter_db") (intToChars sc)
      | none => m2
    let m4 := m3.withData (chars "rain_clutter") ((splitOnChar '*' (parts.getD 4 [])).headI)
    some (m4.withData (chars "sentence_type") (chars "$RADCF"))
  else none

/-- `RadarDataLinkProvider::parse_radar_status`. -/
def parseRadarStatus (now : ℕ) (s : List Char) : Option DataMessage :=
  let parts := splitOnChar ',' s
  if 3 ≤ parts.length ∧ parts.headI = chars "$RADST" then
    let m0 := DataMessage.new now (chars "RADAR_STATUS") (chars "RADAR_RECEIVER") s
    let m1 := (m0.withData (chars "status") (parts.getD 1 [])).withData
      (chars "health") ((splitOnChar '*' (parts.getD 2 [])).headI)
    some (m1.withData (chars "sentence_type") (chars "$RADST"))
  else none

/-- `RadarDataLinkProvider::parse_radar_sentence`: dispatch on a 6-character
`starts_with` prefix. -/
def parseRadarSentence (now : ℕ) (s : List Char) : Option DataMessage :=
  if startsWithStr (chars "$RADTG") s then parseRadarTarget now s
  else if startsWithStr (chars "$RADSC") s then parseRadarScan now s
  else if startsWithStr (chars "$RADCF") s then parseRadarConfig now s
  else if startsWithStr (chars "$RADST") s then parseRadarStatus now s
  else none

/-! ## GPS provider lifecycle (`crates/datalink-provider/src/gps/mod.rs`) -/

/-- `GpsSourceConfig`. -/
inductive GpsSourceConfig
  | serial (port : List Char) (baud_rate : ℕ)
  | tcp (host : List Char) (port : ℕ)
  | udp (bind_addr : List Char) (port : ℕ)
  | file (path : List Char) (replay_speed : ℚ)
deriving DecidableEq

/-- `GpsDataLinkProvider::parse_source_config`: note the defaults
(`baud_rate` "4800", `bind_addr` "0.0.0.0", `replay_speed` "1.0") and that
every failure is an `InvalidConfig`. -/
def gpsParseSourceConfig (cfg : DLConfig) : Except DLError GpsSourceConfig :=
  match getParam cfg (chars "connection_type") with
  | none => .error (.invalidConfig (chars "Missing connection_type"))
  | some ct =>
    if ct = chars "serial" then
      match getParam cfg (chars "port") with
      | none => .error (.invalidConfig (chars "Missing port for serial connection"))
      | some port =>
        match parseU32 ((getParam cfg (chars "baud_rate")).getD (chars "4800")) with
        | none => .error (.invalidConfig (chars "Invalid baud_rate"))
        | some baud => .ok (.serial port baud)
    else if ct = chars "tcp" then
      match getParam cfg (chars "host") with
      | none => .error (.invalidConfig (chars "Missing host for TCP connection"))
      | some host =>
        match getParam cfg (chars "port") with
        | none => .error (.invalidConfig (chars "Missing port for TCP connection"))
        | some ps =>
          match parseU16 ps with
          | none => .error (.invalidConfig (chars "Invalid port number"))
          | some port => .ok (.tcp host port)
    else if ct = chars "udp" then
      match getParam cfg (chars "port") with
      | none => .error (.invalidConfig (chars "Missing port for UDP connection"))
      | some ps =>
        match parseU16 ps with
        | none => .error (.invalidConfig (chars "Invalid port number"))
        | some port => .ok (.udp ((getParam cfg (chars "bind_addr")).getD (chars "0.0.0.0")) port)
    else if ct = chars "file" then
      match getParam cfg (chars "path") with
      | none => .error (.invalidConfig (chars "Missing path for file replay"))
      | some path =>
        match parseRat ((getParam cfg (chars "replay_speed")).getD (chars "1.0")) with
        | none => .error (.invalidConfig (chars "Invalid replay_speed"))
        | some sp => .ok (.file path sp)
    else .error (.invalidConfig (chars "Unsupported connection type: " ++ ct))

/-- `GpsDataLinkProvider` state: `task`/`shutdown` record whether
`receiver_handle`/`shutdown_tx` hold a live handle. -/
structure GpsProvider where
  status : DLStatus
  config : Option DLConfig
  source_config : Option GpsSourceConfig
  queue : List DataMessage
  task : Bool
  shutdown : Bool
deriving DecidableEq

/-- `GpsDataLinkProvider::new`. -/
def gpsProviderNew : GpsProvider :=
  ⟨.disconnected, none, none, [], false, false⟩

/-- `DataLinkReceiver::connect` for the GPS provider.  The Rust code sets
`status = Connecting` and stores the raw config *before* validating it, so
a validation failure (`?` on `parse_source_config`) returns early with
those mutations already applied; on success the receiver task is spawned
and the status becomes `Connected`. -/
def gpsConnect (p : GpsProvider) (cfg : DLConfig) :
    Except DLError Unit × GpsProvider :=
  let p1 := { p with status := DLStatus.connecting, config := some cfg }
  match gpsParseSourceConfig cfg with
  | .error e => (.error e, p1)
  | .ok sc =>
    let p2 := { p1 with source_config := some sc, task := true, shutdown := true, status := DLStatus.connected }
    (.ok (), p2)

/-- `DataLinkReceiver::disconnect` for the GPS provider: signals shutdown,
joins the task, clears config — but leaves the message queue untouched. -/
def gpsDisconnect (p : GpsProvider) : Except DLError Unit × GpsProvider :=
  let p1 := { p with shutdown := false, task := false, status := DLStatus.disconnected, config := none, source_config := none }
  (.ok (), p1)

/-- `DataLinkReceiver::receive_message` for the GPS provider: an
unconditional non-blocking `pop_front`; the connection status is never
consulted. -/
def gpsReceiveMessage (p : GpsProvider) :
    Except DLError (Option DataMessage) × GpsProvider :=
  match p.queue with
  | [] => (.ok none, p)
  | m :: rest => (.ok (some m), { p with queue := rest })

/-- The `DataLinkReceiver::receive_all_messages` default implementation:
`receive_message` in a loop until it yields `none`, which drains the queue
front-to-back. -/
def gpsReceiveAll (p : GpsProvider) :
    Except DLError (List DataMessage) × GpsProvider :=
  (.ok p.queue, { p with queue := [] })

/-! ## Radar provider lifecycle (`crates/datalink-provider/src/radar/mod.rs`) -/

/-- `RadarSourceConfig`. -/
inductive RadarSourceConfig
  | serial (port : List Char) (baud_rate : ℕ)
  | tcp (host : List Char) (port : ℕ)
  | udp (bind_addr : List Char) (port : ℕ)
  | file (path : List Char) (replay_speed : ℚ)
deriving DecidableEq

/-- `RadarDataLinkProvider::parse_source_config`: unlike the GPS provider,
`baud_rate` has no default and is required for serial connections. -/
def radarParseSourceConfig (cfg : DLConfig) : Except DLError RadarSourceConfig :=
  match getParam cfg (chars "connection_type") with
  | none => .error (.invalidConfig (chars "Missing connection_type parameter"))
  | some ct =>
    if ct = chars "serial" then
      match getParam cfg (chars "port") with
      | none => .error (.invalidConfig (chars "Missing port parameter for serial connection"))
      | some port =>
        match getParam cfg (chars "baud_rate") with
        | none => .error (.invalidConfig (chars "Missing baud_rate parameter for serial connection"))
        | some bs =>
          match parseU32 bs with
          | none => .error (.invalidConfig (chars "Invalid baud_rate parameter"))
          | some baud => .ok (.serial port baud)
    else if ct = chars "tcp" then
      match getParam cfg (chars "host") with
      | none => .error (.invalidConfig (chars "Missing host parameter for TCP connection"))
      | some host =>
        match getParam cfg (chars "port") with
        | none => .error (.invalidConfig (chars "Missing port parameter for TCP connection"))
        | some ps =>
          match parseU16 ps with
          | none => .error (.invalidConfig (chars "Invalid port parameter"))
          | some port => .ok (.tcp host port)
    else if ct = chars "udp" then
      match getParam cfg (chars "port") with
      | none => .error (.invalidConfig (chars "Missing port parameter for UDP connection"))
      | some ps =>
        match parseU16 ps with
        | none => .error (.invalidConfig (chars "Invalid port parameter"))
        | some port => .ok (.udp ((getParam cfg (chars "bind_addr")).getD (chars "0.0.0.0")) port)
    else if ct = chars "file" then
      match getParam cfg (chars "path") with
      | none => .error (.invalidConfig (chars "Missing path parameter for file connection"))
      | some path =>
        match parseRat ((getParam cfg (chars "replay_speed")).getD (chars "1.0")) with
        | none => .error (.invalidConfig (chars "Invalid replay_speed parameter"))
        | some sp => .ok (.file path sp)
    else .error (.invalidConfig (chars "Unsupported connection type: " ++ ct))

/-- `RadarDataLinkProvider` state. -/
structure RadarProvider where
  status : DLStatus
  config : Option RadarSourceConfig
  queue : List DataMessage
  shutdown : Bool
  task : Bool
deriving DecidableEq

/-- `RadarDataLinkProvider::new`. -/
def radarProviderNew : RadarProvider :=
  ⟨.disconnected, none, [], false, false⟩

/-- `DataLinkReceiver::connect` for the radar provider: validation happens
first (`parse_source_config(config)?`), so a failure leaves the provider
completely unchanged; on success the parsed config is stored, the receiver
spawned, and the status becomes `Connected`. -/
def radarConnect (p : RadarProvider) (cfg : DLConfig) :
    Except DLError Unit × RadarProvider :=
  match radarParseSourceConfig cfg with
  | .error e => (.error e, p)
  | .ok sc =>
    let p1 := { p with config := some sc, shutdown := true, task := true, status := DLStatus.connected }
    (.ok (), p1)

/-- `DataLinkReceiver::disconnect` for the radar provider: unlike the GPS
provider it also clears the message queue. -/
def radarDisconnect (p : RadarProvider) : Except DLError Unit × RadarProvider :=
  let p1 := { p with shutdown := false, task := false, status := DLStatus.disconnected, config := none, queue := [] }
  (.ok (), p1)

/-! ## AIS fan-out server (`crates/ais/src/ais.rs`) -/

/-- Events on the AIS server's shared state, as performed by
`handle_websocket`: a client attaching (subscribing to the broadcast
channel), a client sending `start_ais_stream`, and a client disconnecting. -/
inductive MuxEv
  | connect
  | startStream
  | disconnect
deriving DecidableEq

/-- The shared `AppState` of the AIS server, together with observer
counters: `senderExists` mirrors `ais_sender.is_some()`, `streamStarted`
mirrors the `ais_stream_started` flag, `clients` counts live subscribers,
`spawned`/`tornDown` count upstream-task spawns and teardowns. -/
structure MuxState where
  senderExists : Bool
  streamStarted : Bool
  clients : ℕ
  spawned : ℕ
  tornDown : ℕ
deriving DecidableEq

/-- `start_ais_server` initial state: the broadcast sender is created up
front, the stream-started flag is false, nothing spawned. -/
def muxInit : MuxState := ⟨true, false, 0, 0, 0⟩

/-- One event against the shared state.  `connect` subscribes when the
sender exists; `start_ais_stream` spawns the upstream task only if the
`ais_stream_started` latch is still false, and sets it; `disconnect` just
ends that client's loop — no code path ever tears the upstream task down,
resets the latch, or drops the sender. -/
def muxStep (s : MuxState) (e : MuxEv) : MuxState :=
  match e with
  | .connect => if s.senderExists then { s with clients := s.clients + 1 } else s
  | .startStream =>
    if s.streamStarted then s
    else { s with streamStarted := true, spawned := s.spawned + 1 }
  | .disconnect => { s with clients := s.clients - 1 }

/-- The state after a sequence of events from server start. -/
def muxRun (evs : List MuxEv) : MuxState := evs.foldl muxStep muxInit

/-- A trace of `connect`/`disconnect` events that is a valid interleaving of
N acquires with N releases: never releasing below zero, ending balanced,
and containing no other events. -/
def acqRelValid : List MuxEv → ℕ → Bool
  | [], k => k == 0
  | MuxEv.connect :: rest, k => acqRelValid rest (k + 1)
  | MuxEv.disconnect :: rest, k => decide (0 < k) && acqRelValid rest (k - 1)
  | MuxEv.startStream :: _, _ => false

/-- Claim C1 as stated, over the embedded AIS-server lifecycle: on any valid
interleaving of N ≥ 1 acquires (client attaches) and N releases (client
departures), exactly one upstream task is spawned, exactly one is torn
down, and a live task-plus-sender exists iff the client count is positive. -/
def claimC1 : Prop :=
  ∀ evs : List MuxEv, acqRelValid evs 0 = true → evs ≠ [] →
    (muxRun evs).spawned = 1 ∧ (muxRun evs).tornDown = 1 ∧
    (((muxRun evs).streamStarted = true ∧ (muxRun evs).senderExists = true) ↔
      0 < (muxRun evs).clients)

/-! ## File-replay pacing (`file_receiver` in gps/ais/radar providers) -/

/-- `Duration::from_millis((1000.0 / replay_speed) as u64)` in milliseconds. -/
def replayDelayMs (speed : ℚ) : ℕ := Int.toNat ⌊(1000 : ℚ) / speed⌋

/-- The file-receiver loop as it is written: each iteration enters
`tokio::select!` (shutdown wins whenever its signal has already arrived),
and after reading a line the pacing sleep is awaited *inside* the read
branch, so the shutdown signal is not observed again until the sleep has
completed and the loop re-enters the select.  `lines` counts unread lines,
`t` is the current time in ms, `shutdownAt` the arrival time of the
shutdown signal; the result is the time at which the loop exits. -/
def replayRun (delay shutdownAt : ℕ) : ℕ → ℕ → ℕ
  | 0, t => t
  | l + 1, t =>
    if shutdownAt ≤ t then t else replayRun delay shutdownAt l (t + delay)

/-- Modelled from the spec: the same loop but with the pacing sleep raced
against the shutdown signal, so a shutdown arriving mid-delay ends the
loop at its arrival time. -/
def replayRunSpec (delay shutdownAt : ℕ) : ℕ → ℕ → ℕ
  | 0, t => t
  | l + 1, t =>
    if shutdownAt ≤ t then t
    else if shutdownAt < t + delay then shutdownAt
    else replayRunSpec delay shutdownAt l (t + delay)

/-- Claim C7 as stated: the as-written replay loop behaves like the raced
version for every replay speed, line count and shutdown arrival time. -/
def claimC7 : Prop :=
  ∀ (speed : ℚ) (lines shutdownAt : ℕ),
    replayRun (replayDelayMs speed) shutdownAt lines 0 =
      replayRunSpec (replayDelayMs speed) shutdownAt lines 0

/-! ## Spec-side formulas and claim statements -/

/-- The spec's coordinate-conversion law:
`floor(raw/100) + (raw - 100*floor(raw/100))/60`. -/
def specCoordLaw (raw : ℚ) : ℚ :=
  (⌊raw / 100⌋ : ℤ) + (raw - 100 * ((⌊raw / 100⌋ : ℤ) : ℚ)) / 60

/-- Claim C2 as stated: every receiver loop's buffer — the GPS/AIS loops
use `pushBounded`, the radar loops use `pushRadar` — is a capacity-1000
drop-oldest FIFO, so 1001 insertions leave exactly 1000 messages. -/
def claimC2 : Prop :=
  ∀ msgs : List ℕ, msgs.length = 1001 →
    (msgs.foldl pushBounded []).length = 1000 ∧
    (msgs.foldl pushRadar []).length = 1000

/-- Claim C4 as stated: an RMC sentence with ≥ 12 fields whose validity
flag differs from `"A"` is rejected (`none`) by the position parsers —
both the GNSS parser and the GPS sentence parser. -/
def claimC4 : Prop :=
  ∀ (now : ℕ) (s : List Char),
    startsWithChar '$' s = true →
    12 ≤ (splitOnChar ',' s).length →
    (splitOnChar ',' s).headI = chars "$GPRMC" →
    (splitOnChar ',' s).getD 2 [] ≠ chars "A" →
    GnssParser.parseSentence s = none ∧ parseGpsSentence now s = none

/-- Claim C5 as stated: an invalid configuration makes `connect()` fail
synchronously with an invalid-configuration error, spawning no task and
leaving no partial state — i.e. the provider is exactly as it was. -/
def claimC5 : Prop :=
  (∀ (p : GpsProvider) (cfg : DLConfig) (e : DLError),
    gpsParseSourceConfig cfg = .error e →
    (gpsConnect p cfg).1 = .error e ∧ (gpsConnect p cfg).2 = p) ∧
  (∀ (p : RadarProvider) (cfg : DLConfig) (e : DLError),
    radarParseSourceConfig cfg = .error e →
    (radarConnect p cfg).1 = .error e ∧ (radarConnect p cfg).2 = p)

/-- Claim C6 as stated: `receive_message`/`receive_all_messages` return
`none`/empty whenever the buffer is empty **or the provider is not
connected**. -/
def claimC6 : Prop :=
  ∀ p : GpsProvider, p.queue = [] ∨ p.status ≠ DLStatus.connected →
    (gpsReceiveMessage p).1 = .ok none ∧ (gpsReceiveAll p).1 = .ok []

/-- A serial config with no parameters at all: `connection_type` missing. -/
def badGpsCfg : DLConfig := ⟨chars "serial", [], 5, true⟩

/-- A GPRMC sentence whose validity flag (field 2) is `"V"`, not `"A"`. -/
def rmcInvalidSentence : List Char :=
  chars "$GPRMC,123519,V,4807.038,N,01131.000,E,022.4,084.4,230394,003.1,W"

/-- A well-formed AIS identification sentence with a checksum suffix. -/
def aisDemo : List Char := chars "!AIVDM,1,1,,A,15M8J7001G,0*7B"

/-- A GPGGA sentence with 15 fields, all value fields empty. -/
def emptyGgaParts : List (List Char) :=
  splitOnChar ',' (chars "$GPGGA,,,,,,,,,,,,,,")

/-- A demo message for buffer/receive counterexamples. -/
def demoMsg : DataMessage := DataMessage.new 0 (chars "X") (chars "Y") []

/-! ## Helper lemmas -/

theorem parseRat_nil : parseRat [] = none := rfl

theorem pushRadar_length {α : Type} (q : List α) (m : α) :
    (pushRadar q m).length = q.length + 1 := by
  simp [pushRadar]

theorem foldl_pushRadar_length {α : Type} (msgs : List α) :
    ∀ q : List α, (msgs.foldl pushRadar q).length = q.length + msgs.length := by
  induction msgs with
  | nil => intro q; simp
  | cons m ms ih =>
    intro q
    simp only [List.foldl_cons, ih, pushRadar_length, List.length_cons]
    omega

theorem pushBounded_length_le {α : Type} (q : List α) (m : α)
    (h : q.length ≤ 1000) : (pushBounded q m).length ≤ 1000 := by
  unfold pushBounded
  split
  · simp only [List.length_tail, List.length_append, List.length_cons, List.length_nil]
    omega
  · next hn =>
    simp only [List.length_append, List.length_cons, List.length_nil] at hn ⊢
    omega

theorem foldl_pushBounded_fill {α : Type} (msgs : List α) :
    ∀ q : List α, q.length + msgs.length ≤ 1000 →
      msgs.foldl pushBounded q = q ++ msgs := by
  induction msgs with
  | nil => intro q _; simp
  | cons m ms ih =>
    intro q h
    simp only [List.length_cons] at h
    have hstep : pushBounded q m = q ++ [m] := by
      unfold pushBounded
      rw [if_neg]
      simp only [List.length_append, List.length_cons, List.length_nil]
      omega
    simp only [List.foldl_cons, hstep]
    rw [ih (q ++ [m]) (by simp; omega)]
    simp

theorem foldl_pushBounded_evicts {α : Type} (msgs : List α)
    (h : msgs.length = 1001) : msgs.foldl pushBounded [] = msgs.tail := by
  have hne : msgs ≠ [] := by
    intro e
    rw [e] at h
    simp at h
  have hsplit := List.dropLast_append_getLast hne
  have hdl : msgs.dropLast.length = 1000 := by
    rw [List.length_dropLast, h]
  conv_lhs => rw [← hsplit]
  rw [List.foldl_append]
  rw [foldl_pushBounded_fill msgs.dropLast [] (by simp [hdl])]
  simp only [List.nil_append, List.foldl_cons, List.foldl_nil]
  unfold pushBounded
  rw [if_pos]
  · rw [hsplit]
  · simp only [List.length_append, List.length_cons, List.length_nil, hdl]
    omega

/-! ## Claim C2 -/

/-- Claim C2 fails as stated: the radar receiver loops append with no
capacity check, so 1001 insertions leave 1001 messages, not 1000. -/
theorem c2_counterexample :
    ¬ claimC2 ∧ ((List.range 1001).foldl pushRadar []).length = 1001 := by
  constructor
  · intro h
    have h2 := (h (List.range 1001) (by simp)).2
    rw [foldl_pushRadar_length] at h2
    simp at h2
  · rw [foldl_pushRadar_length]
    simp

/-- Claim C2, amended: the GPS and AIS receiver loops do maintain a
capacity-1000 drop-oldest FIFO — each insertion preserves the ≤ 1000 bound,
and 1001 insertions into an empty buffer leave exactly the last 1000 with
the oldest evicted — but the radar receiver loops push without any bound. -/
theorem c2_amended :
    (∀ (q : List ℕ) (m : ℕ), q.length ≤ 1000 →
      (pushBounded q m).length ≤ 1000) ∧
    (∀ msgs : List ℕ, msgs.length = 1001 →
      msgs.foldl pushBounded [] = msgs.tail ∧
      (msgs.foldl pushBounded []).length = 1000) ∧
    (∀ (q : List ℕ) (m : ℕ), (pushRadar q m).length = q.length + 1) := by
  refine ⟨fun q m h => pushBounded_length_le q m h, fun msgs h => ?_, fun q m => pushRadar_length q m⟩
  have he := foldl_pushBounded_evicts msgs h
  refine ⟨he, ?_⟩
  rw [he, List.length_tail, h]

/-- Witness for C2 (amended): 1001 concrete messages leave exactly 1000. -/
theorem c2_amended_witness :
    ((List.range 1001).foldl pushBounded []).length = 1000 :=
  (c2_amended.2.1 (List.range 1001) (by simp)).2

/-! ## Claim C1 -/

/-- Claim C1 fails as stated: a balanced attach/detach trace spawns no
upstream task at all (spawning needs an explicit `start_ais_stream`
message, not a client attach), and once started the task is never torn
down even when the last client leaves. -/
theorem c1_counterexample :
    ¬ claimC1 ∧
    (muxRun [MuxEv.connect, MuxEv.startStream, MuxEv.disconnect]).tornDown = 0 ∧
    (muxRun [MuxEv.connect, MuxEv.startStream, MuxEv.disconnect]).streamStarted = true ∧
    (muxRun [MuxEv.connect, MuxEv.startStream, MuxEv.disconnect]).clients = 0 := by
  refine ⟨?_, rfl, rfl, rfl⟩
  intro h
  have h2 := h [MuxEv.connect, MuxEv.disconnect] (by decide) (by decide)
  exact absurd h2.1 (by decide)

/-- The invariant actually maintained by the AIS server's shared state. -/
def MuxInv (s : MuxState) : Prop :=
  s.spawned ≤ 1 ∧ s.tornDown = 0 ∧ s.senderExists = true ∧
  (s.spawned = 1 ↔ s.streamStarted = true)

theorem muxStep_inv (s : MuxState) (e : MuxEv) (h : MuxInv s) :
    MuxInv (muxStep s e) := by
  obtain ⟨h1, h2, h3, h4⟩ := h
  cases e with
  | connect =>
    simp only [muxStep]
    split <;> exact ⟨h1, h2, h3, h4⟩
  | startStream =>
    simp only [muxStep]
    split
    · exact ⟨h1, h2, h3, h4⟩
    · next hns =>
      have hs0 : s.spawned = 0 := by
        rcases Nat.lt_or_ge s.spawned 1 with hl | hg
        · omega
        · have hone : s.spawned = 1 := by omega
          exact absurd (h4.mp hone) hns
      exact ⟨by simp [MuxInv, hs0], h2, h3, by simp [hs0]⟩
  | disconnect =>
    simp only [muxStep]
    exact ⟨h1, h2, h3, h4⟩

theorem muxFoldl_inv (evs : List MuxEv) :
    ∀ s : MuxState, MuxInv s → MuxInv (evs.foldl muxStep s) := by
  induction evs with
  | nil => intro s h; exact h
  | cons e rest ih =>
    intro s h
    exact ih (muxStep s e) (muxStep_inv s e h)

/-- Claim C1, amended: across **any** sequence of client attaches,
`start_ais_stream` requests and departures, at most one upstream task is
ever spawned (the stream-started latch flips once and only its first flip
spawns), no upstream task is ever torn down, and the fan-out sender exists
from server start independent of the client count. -/
theorem c1_amended (evs : List MuxEv) :
    (muxRun evs).spawned ≤ 1 ∧ (muxRun evs).tornDown = 0 ∧
    (muxRun evs).senderExists = true ∧
    ((muxRun evs).spawned = 1 ↔ (muxRun evs).streamStarted = true) :=
  muxFoldl_inv evs muxInit (by refine ⟨by decide, rfl, rfl, by decide⟩)

/-! ## Claim C7 -/

/-- Claim C7 fails as stated: with replay speed 1 (a 1000 ms pacing delay)
and a shutdown signal arriving at t = 500, mid-first-delay, the loop as
written exits only at t = 1000 — after the full sleep — while the raced
version demanded by the spec would exit at t = 500. -/
theorem c7_counterexample :
    ¬ claimC7 ∧ replayRun 1000 500 5 0 = 1000 ∧ replayRunSpec 1000 500 5 0 = 500 := by
  have hd : replayDelayMs 1 = 1000 := by
    unfold replayDelayMs
    rw [div_one, show (⌊(1000 : ℚ)⌋ : ℤ) = 1000 from by norm_num]
    rfl
  refine ⟨?_, by decide, by decide⟩
  intro h
  have h2 := h 1 5 500
  rw [hd] at h2
  exact absurd h2 (by decide)

/-- Claim C7, amended: the file-replay loop paces by
`⌊1000 / replay_speed⌋` milliseconds per line, but the pacing sleep is not
raced against the shutdown signal: the loop only ever exits at an
iteration boundary `t + delay·k` — either once the shutdown signal has
already arrived at that boundary or at end of file — so a shutdown
arriving mid-delay takes effect only after the sleep completes. -/
theorem c7_amended :
    (∀ delay shutdownAt lines t : ℕ, ∃ k, k ≤ lines ∧
      replayRun delay shutdownAt lines t = t + delay * k ∧
      (shutdownAt ≤ t + delay * k ∨ k = lines)) ∧
    replayDelayMs 1 = 1000 ∧ replayDelayMs 2 = 500 ∧ replayDelayMs 3 = 333 := by
  refine ⟨?_, ?_, ?_, ?_⟩
  · intro delay shutdownAt lines
    induction lines with
    | zero => intro t; exact ⟨0, Nat.le_refl 0, by simp [replayRun], Or.inr rfl⟩
    | succ l ih =>
      intro t
      by_cases h : shutdownAt ≤ t
      · refine ⟨0, Nat.zero_le _, ?_, Or.inl (by simpa using h)⟩
        simp [replayRun, h]
      · obtain ⟨k, hk, he, hd⟩ := ih (t + delay)
        refine ⟨k + 1, by omega, ?_, ?_⟩
        · rw [show replayRun delay shutdownAt (l + 1) t
            = replayRun delay shutdownAt l (t + delay) from by simp [replayRun, h]]
          rw [he, Nat.mul_succ]
          omega
        · rcases hd with hd | hd
          · exact Or.inl (by rw [Nat.mul_succ]; omega)
          · exact Or.inr (by omega)
  · unfold replayDelayMs
    rw [div_one, show (⌊(1000 : ℚ)⌋ : ℤ) = 1000 from by norm_num]
    rfl
  · unfold replayDelayMs
    rw [show ((1000 : ℚ) / 2) = 500 from by norm_num,
      show (⌊(500 : ℚ)⌋ : ℤ) = 500 from by norm_num]
    rfl
  · unfold replayDelayMs
    rw [show (⌊(1000 : ℚ) / 3⌋ : ℤ) = 333 from by
      rw [Int.floor_eq_iff]
      constructor <;> norm_num]
    rfl

/-! ## Claim C5 -/

/-- Claim C5 fails as stated: on an invalid configuration the GPS provider
does fail synchronously with an invalid-configuration error and spawns no
task, but it has already mutated itself — status `Connecting` and the
rejected raw config stored — so partial state remains. -/
theorem c5_counterexample :
    ¬ claimC5 ∧
    (gpsConnect gpsProviderNew badGpsCfg).1 =
      Except.error (DLError.invalidConfig (chars "Missing connection_type")) ∧
    (gpsConnect gpsProviderNew badGpsCfg).2.task = false ∧
    (gpsConnect gpsProviderNew badGpsCfg).2.status = DLStatus.connecting ∧
    (gpsConnect gpsProviderNew badGpsCfg).2.config = some badGpsCfg := by
  refine ⟨?_, rfl, rfl, rfl, rfl⟩
  intro h
  have h2 := (h.1 gpsProviderNew badGpsCfg
    (DLError.invalidConfig (chars "Missing connection_type")) rfl).2
  exact absurd (congrArg GpsProvider.status h2) (by decide)

/-- Claim C5, amended: configuration validation is synchronous and always
yields an invalid-configuration error before any receiver task is spawned;
the radar provider is left completely untouched on failure, while the GPS
provider is left with status `Connecting` and the rejected raw config
stored (its task, shutdown handle, queue and parsed source config are
unchanged). -/
theorem c5_amended :
    (∀ (p : GpsProvider) (cfg : DLConfig) (e : DLError),
      gpsParseSourceConfig cfg = .error e →
      (gpsConnect p cfg).1 = .error e ∧
      (gpsConnect p cfg).2.task = p.task ∧
      (gpsConnect p cfg).2.shutdown = p.shutdown ∧
      (gpsConnect p cfg).2.source_config = p.source_config ∧
      (gpsConnect p cfg).2.queue = p.queue ∧
      (gpsConnect p cfg).2.status = DLStatus.connecting ∧
      (gpsConnect p cfg).2.config = some cfg) ∧
    (∀ (p : RadarProvider) (cfg : DLConfig) (e : DLError),
      radarParseSourceConfig cfg = .error e →
      radarConnect p cfg = (.error e, p)) ∧
    (∀ (cfg : DLConfig) (e : DLError),
      gpsParseSourceConfig cfg = .error e →
      ∃ msg, e = DLError.invalidConfig msg) ∧
    (∀ (cfg : DLConfig) (e : DLError),
      radarParseSourceConfig cfg = .error e →
      ∃ msg, e = DLError.invalidConfig msg) := by
  refine ⟨?_, ?_, ?_, ?_⟩
  · intro p cfg e h
    unfold gpsConnect
    rw [h]
    exact ⟨rfl, rfl, rfl, rfl, rfl, rfl, rfl⟩
  · intro p cfg e h
    unfold radarConnect
    rw [h]
  · intro cfg e h
    unfold gpsParseSourceConfig at h
    repeat' split at h
    all_goals first
      | (simp only [Except.error.injEq] at h; exact ⟨_, h.symm⟩)
      | simp_all
  · intro cfg e h
    unfold radarParseSourceConfig at h
    repeat' split at h
    all_goals first
      | (simp only [Except.error.injEq] at h; exact ⟨_, h.symm⟩)
      | simp_all

/-- Witness for C5 (amended), at the concrete parameterless config. -/
theorem c5_amended_witness :
    (gpsConnect gpsProviderNew badGpsCfg).1 =
      Except.error (DLError.invalidConfig (chars "Missing connection_type")) ∧
    radarConnect radarProviderNew badGpsCfg =
      (Except.error (DLError.invalidConfig (chars "Missing connection_type parameter")),
        radarProviderNew) :=
  ⟨(c5_amended.1 gpsProviderNew badGpsCfg
      (DLError.invalidConfig (chars "Missing connection_type")) rfl).1,
    c5_amended.2.1 radarProviderNew badGpsCfg
      (DLError.invalidConfig (chars "Missing connection_type parameter")) rfl⟩

/-! ## Claim C6 -/

/-- A connected GPS provider whose receiver has buffered one message. -/
def c6pre : GpsProvider :=
  { gpsProviderNew with status := DLStatus.connected, queue := [demoMsg], task := true, shutdown := true }

/-- A reachable GPS provider state that is disconnected with one buffered
message: connect leaves messages in the queue and `disconnect` does not
clear it. -/
def c6state : GpsProvider := (gpsDisconnect c6pre).2

/-- Claim C6 fails as stated: `receive_message` never consults the
connection status, so a disconnected provider whose buffer still holds a
message returns that message, not `none`. -/
theorem c6_counterexample :
    ¬ claimC6 ∧
    c6state.status = DLStatus.disconnected ∧
    c6state.queue = [demoMsg] ∧
    (gpsReceiveMessage c6state).1 = Except.ok (some demoMsg) ∧
    (gpsReceiveAll c6state).1 = Except.ok [demoMsg] := by
  refine ⟨?_, rfl, rfl, rfl, rfl⟩
  intro h
  have h2 := (h c6state (Or.inr (by decide))).1
  rw [show (gpsReceiveMessage c6state).1 = Except.ok (some demoMsg) from rfl] at h2
  simp at h2

/-- Claim C6, amended: `receive_message` and `receive_all_messages` are
non-blocking pops that return `none`/empty exactly when the buffer is
empty; the connection status is not consulted, and `disconnect` leaves the
GPS provider's buffer intact, so buffered messages are still returned
after disconnecting. -/
theorem c6_amended (p : GpsProvider) :
    (gpsReceiveMessage p).1 = Except.ok p.queue.head? ∧
    (gpsReceiveMessage p).2.queue = p.queue.tail ∧
    ((gpsReceiveMessage p).1 = Except.ok none ↔ p.queue = []) ∧
    (gpsReceiveAll p).1 = Except.ok p.queue ∧
    (gpsDisconnect p).2.queue = p.queue := by
  obtain ⟨st, cfg, sc, q, tk, sh⟩ := p
  cases q <;> simp [gpsReceiveMessage, gpsReceiveAll, gpsDisconnect]

/-! ## Projection lemmas for the GNSS field setters -/

namespace GnssParser

theorem setTimestamp_latitude (loc : LocationData) (p : List Char) :
    (setTimestamp loc p).latitude = loc.latitude := by
  unfold setTimestamp
  split <;> rfl

theorem setTimestamp_longitude (loc : LocationData) (p : List Char) :
    (setTimestamp loc p).longitude = loc.longitude := by
  unfold setTimestamp
  split <;> rfl

theorem setTimestamp_fix (loc : LocationData) (p : List Char) :
    (setTimestamp loc p).fix_quality = loc.fix_quality := by
  unfold setTimestamp
  split <;> rfl

theorem setTimestamp_sats (loc : LocationData) (p : List Char) :
    (setTimestamp loc p).satellites = loc.satellites := by
  unfold setTimestamp
  split <;> rfl

theorem setTimestamp_alt (loc : LocationData) (p : List Char) :
    (setTimestamp loc p).altitude = loc.altitude := by
  unfold setTimestamp
  split <;> rfl

theorem setLatitude_longitude (loc : LocationData) (a b : List Char) :
    (setLatitude loc a b).longitude = loc.longitude := by
  unfold setLatitude
  split
  · rcases hq : parseRat a with _ | v <;> simp [hq]
  · rfl

theorem setLatitude_fix (loc : LocationData) (a b : List Char) :
    (setLatitude loc a b).fix_quality = loc.fix_quality := by
  unfold setLatitude
  split
  · rcases hq : parseRat a with _ | v <;> simp [hq]
  · rfl

theorem setLatitude_sats (loc : LocationData) (a b : List Char) :
    (setLatitude loc a b).satellites = loc.satellites := by
  unfold setLatitude
  split
  · rcases hq : parseRat a with _ | v <;> simp [hq]
  · rfl

theorem setLatitude_alt (loc : LocationData) (a b : List Char) :
    (setLatitude loc a b).altitude = loc.altitude := by
  unfold setLatitude
  split
  · rcases hq : parseRat a with _ | v <;> simp [hq]
  · rfl

theorem setLongitude_latitude (loc : LocationData) (a b : List Char) :
    (setLongitude loc a b).latitude = loc.latitude := by
  unfold setLongitude
  split
  · rcases hq : parseRat a with _ | v <;> simp [hq]
  · rfl

theorem setLongitude_fix (loc : LocationData) (a b : List Char) :
    (setLongitude loc a b).fix_quality = loc.fix_quality := by
  unfold setLongitude
  split
  · rcases hq : parseRat a with _ | v <;> simp [hq]
  · rfl

theorem setLongitude_sats (loc : LocationData) (a b : List Char) :
    (setLongitude loc a b).satellites = loc.satellites := by
  unfold setLongitude
  split
  · rcases hq : parseRat a with _ | v <;> simp [hq]
  · rfl

theorem setLongitude_alt (loc : LocationData) (a b : List Char) :
    (setLongitude loc a b).altitude = loc.altitude := by
  unfold setLongitude
  split
  · rcases hq : parseRat a with _ | v <;> simp [hq]
  · rfl

theorem setFixQuality_latitude (loc : LocationData) (p : List Char) :
    (setFixQuality loc p).latitude = loc.latitude := by
  unfold setFixQuality
  split
  · rcases hq : parseU8 p with _ | v <;> simp [hq]
  · rfl

theorem setFixQuality_longitude (loc : LocationData) (p : List Char) :
    (setFixQuality loc p).longitude = loc.longitude := by
  unfold setFixQuality
  split
  · rcases hq : parseU8 p with _ | v <;> simp [hq]
  · rfl

theorem setFixQuality_sats (loc : LocationData) (p : List Char) :
    (setFixQuality loc p).satellites = loc.satellites := by
  unfold setFixQuality
  split
  · rcases hq : parseU8 p with _ | v <;> simp [hq]
  · rfl

theorem setFixQuality_alt (loc : LocationData) (p : List Char) :
    (setFixQuality loc p).altitude = loc.altitude := by
  unfold setFixQuality
  split
  · rcases hq : parseU8 p with _ | v <;> simp [hq]
  · rfl

theorem setSatellites_latitude (loc : LocationData) (p : List Char) :
    (setSatellites loc p).latitude = loc.latitude := by
  unfold setSatellites
  split
  · rcases hq : parseU8 p with _ | v <;> simp [hq]
  · rfl

theorem setSatellites_longitude (loc : LocationData) (p : List Char) :
    (setSatellites loc p).longitude = loc.longitude := by
  unfold setSatellites
  split
  · rcases hq : parseU8 p with _ | v <;> simp [hq]
  · rfl

theorem setSatellites_fix (loc : LocationData) (p : List Char) :
    (setSatellites loc p).fix_quality = loc.fix_quality := by
  unfold setSatellites
  split
  · rcases hq : parseU8 p with _ | v <;> simp [hq]
  · rfl

theorem setSatellites_alt (loc : LocationData) (p : List Char) :
    (setSatellites loc p).altitude = loc.altitude := by
  unfold setSatellites
  split
  · rcases hq : parseU8 p with _ | v <;> simp [hq]
  · rfl

theorem setAltitude_latitude (loc : LocationData) (p : List Char) :
    (setAltitude loc p).latitude = loc.latitude := by
  unfold setAltitude
  split
  · rcases hq : parseRat p with _ | v <;> simp [hq]
  · rfl

theorem setAltitude_longitude (loc : LocationData) (p : List Char) :
    (setAltitude loc p).longitude = loc.longitude := by
  unfold setAltitude
  split
  · rcases hq : parseRat p with _ | v <;> simp [hq]
  · rfl

theorem setAltitude_fix (loc : LocationData) (p : List Char) :
    (setAltitude loc p).fix_quality = loc.fix_quality := by
  unfold setAltitude
  split
  · rcases hq : parseRat p with _ | v <;> simp [hq]
  · rfl

theorem setAltitude_sats (loc : LocationData) (p : List Char) :
    (setAltitude loc p).satellites = loc.satellites := by
  unfold setAltitude
  split
  · rcases hq : parseRat p with _ | v <;> simp [hq]
  · rfl

theorem setSpeed_latitude (loc : LocationData) (p : List Char) :
    (setSpeed loc p).latitude = loc.latitude := by
  unfold setSpeed
  split
  · rcases hq : parseRat p with _ | v <;> simp [hq]
  · rfl

theorem setSpeed_longitude (loc : LocationData) (p : List Char) :
    (setSpeed loc p).longitude = loc.longitude := by
  unfold setSpeed
  split
  · rcases hq : parseRat p with _ | v <;> simp [hq]
  · rfl

theorem setLatitude_eq (loc : LocationData) (praw phemi : List Char) (raw : ℚ)
    (hp : parseRat praw = some raw) (hh : phemi ≠ []) :
    (setLatitude loc praw phemi).latitude =
      some (if phemi = chars "S" then -coordFromRaw raw else coordFromRaw raw) := by
  have hraw : praw ≠ [] := by
    intro e
    rw [e, parseRat_nil] at hp
    cases hp
  unfold setLatitude
  rw [if_pos ⟨hraw, hh⟩, hp]

theorem setLatitude_keeps (loc : LocationData) (praw phemi : List Char)
    (h : phemi = [] ∨ parseRat praw = none) :
    (setLatitude loc praw phemi).latitude = loc.latitude := by
  unfold setLatitude
  rcases h with h | h
  · rw [if_neg (fun hc => hc.2 h)]
  · split
    · rw [h]
    · rfl

theorem setLongitude_eq (loc : LocationData) (praw phemi : List Char) (raw : ℚ)
    (hp : parseRat praw = some raw) (hh : phemi ≠ []) :
    (setLongitude loc praw phemi).longitude =
      some (if phemi = chars "W" then -coordFromRaw raw else coordFromRaw raw) := by
  have hraw : praw ≠ [] := by
    intro e
    rw [e, parseRat_nil] at hp
    cases hp
  unfold setLongitude
  rw [if_pos ⟨hraw, hh⟩, hp]

theorem setLongitude_keeps (loc : LocationData) (praw phemi : List Char)
    (h : phemi = [] ∨ parseRat praw = none) :
    (setLongitude loc praw phemi).longitude = loc.longitude := by
  unfold setLongitude
  rcases h with h | h
  · rw [if_neg (fun hc => hc.2 h)]
  · split
    · rw [h]
    · rfl

theorem setFixQuality_keeps (loc : LocationData) (p : List Char)
    (h : parseU8 p = none) :
    (setFixQuality loc p).fix_quality = loc.fix_quality := by
  unfold setFixQuality
  split
  · rw [h]
  · rfl

theorem setSatellites_keeps (loc : LocationData) (p : List Char)
    (h : parseU8 p = none) :
    (setSatellites loc p).satellites = loc.satellites := by
  unfold setSatellites
  split
  · rw [h]
  · rfl

theorem setAltitude_keeps (loc : LocationData) (p : List Char)
    (h : parseRat p = none) :
    (setAltitude loc p).altitude = loc.altitude := by
  unfold setAltitude
  split
  · rw [h]
  · rfl

end GnssParser

/-- The code's conversion block computes exactly the spec's law. -/
theorem coordFromRaw_eq_spec (raw : ℚ) :
    GnssParser.coordFromRaw raw = specCoordLaw raw := by
  simp only [GnssParser.coordFromRaw, specCoordLaw]
  ring

/-! ## Claim C3 -/

/-- Claim C3: in every position-fix coordinate case — GGA latitude (fields
2/3) and longitude (fields 4/5), and RMC latitude (fields 3/4) and
longitude (fields 5/6, behind the `"A"` validity flag) — a raw coordinate
that parses as a number decodes to
`floor(raw/100) + (raw - 100*floor(raw/100))/60`, negated exactly when the
hemisphere field is `"S"` (latitude) resp. `"W"` (longitude). -/
theorem c3 :
    (∀ (parts : List (List Char)) (raw : ℚ), 15 ≤ parts.length →
      parseRat (parts.getD 2 []) = some raw → parts.getD 3 [] ≠ [] →
      ∃ loc, GnssParser.parseGpgga parts = some loc ∧
        loc.latitude = some (if parts.getD 3 [] = chars "S"
          then -specCoordLaw raw else specCoordLaw raw)) ∧
    (∀ (parts : List (List Char)) (raw : ℚ), 15 ≤ parts.length →
      parseRat (parts.getD 4 []) = some raw → parts.getD 5 [] ≠ [] →
      ∃ loc, GnssParser.parseGpgga parts = some loc ∧
        loc.longitude = some (if parts.getD 5 [] = chars "W"
          then -specCoordLaw raw else specCoordLaw raw)) ∧
    (∀ (parts : List (List Char)) (raw : ℚ), 12 ≤ parts.length →
      parts.getD 2 [] = chars "A" →
      parseRat (parts.getD 3 []) = some raw → parts.getD 4 [] ≠ [] →
      ∃ loc, GnssParser.parseGprmc parts = some loc ∧
        loc.latitude = some (if parts.getD 4 [] = chars "S"
          then -specCoordLaw raw else specCoordLaw raw)) ∧
    (∀ (parts : List (List Char)) (raw : ℚ), 12 ≤ parts.length →
      parts.getD 2 [] = chars "A" →
      parseRat (parts.getD 5 []) = some raw → parts.getD 6 [] ≠ [] →
      ∃ loc, GnssParser.parseGprmc parts = some loc ∧
        loc.longitude = some (if parts.getD 6 [] = chars "W"
          then -specCoordLaw raw else specCoordLaw raw)) := by
  refine ⟨?_, ?_, ?_, ?_⟩
  · intro parts raw hlen hp hh
    unfold GnssParser.parseGpgga
    rw [if_neg (by omega)]
    refine ⟨_, rfl, ?_⟩
    rw [GnssParser.setAltitude_latitude, GnssParser.setSatellites_latitude,
      GnssParser.setFixQuality_latitude, GnssParser.setLongitude_latitude,
      GnssParser.setLatitude_eq _ _ _ raw hp hh, coordFromRaw_eq_spec]
  · intro parts raw hlen hp hh
    unfold GnssParser.parseGpgga
    rw [if_neg (by omega)]
    refine ⟨_, rfl, ?_⟩
    rw [GnssParser.setAltitude_longitude, GnssParser.setSatellites_longitude,
      GnssParser.setFixQuality_longitude,
      GnssParser.setLongitude_eq _ _ _ raw hp hh, coordFromRaw_eq_spec]
  · intro parts raw hlen hA hp hh
    unfold GnssParser.parseGprmc
    rw [if_neg (by omega), if_neg (fun hc => hc hA)]
    refine ⟨_, rfl, ?_⟩
    rw [GnssParser.setSpeed_latitude, GnssParser.setLongitude_latitude,
      GnssParser.setLatitude_eq _ _ _ raw hp hh, coordFromRaw_eq_spec]
  · intro parts raw hlen hA hp hh
    unfold GnssParser.parseGprmc
    rw [if_neg (by omega), if_neg (fun hc => hc hA)]
    refine ⟨_, rfl, ?_⟩
    rw [GnssParser.setSpeed_longitude,
      GnssParser.setLongitude_eq _ _ _ raw hp hh, coordFromRaw_eq_spec]

/-- A GGA sentence whose raw latitude field is the integer string 4800. -/
def ggaDemoParts : List (List Char) :=
  splitOnChar ',' (chars "$GPGGA,123519,4800,S,01131.000,E,1,08,0.9,545.4,M,46.9,M,,")

/-- Witness for C3 at a concrete sentence: raw latitude 4800 with
hemisphere S decodes to the negated law value. -/
theorem c3_witness :
    ∃ loc, GnssParser.parseGpgga ggaDemoParts = some loc ∧
      loc.latitude = some (if ggaDemoParts.getD 3 [] = chars "S"
        then -specCoordLaw ((4800 : ℕ) : ℚ) else specCoordLaw ((4800 : ℕ) : ℚ)) := by
  apply c3.1 ggaDemoParts ((4800 : ℕ) : ℚ) (by decide) ?_ (by decide)
  rw [show ggaDemoParts.getD 2 [] = chars "4800" from by decide]
  rfl

/-! ## Claim C10 -/

/-- Claim C10: a GGA sentence with at least 15 fields always produces a
location record; an empty or unparseable coordinate, fix-quality,
satellite-count or altitude field merely leaves that one field absent. -/
theorem c10 (parts : List (List Char)) (h : 15 ≤ parts.length) :
    ∃ loc, GnssParser.parseGpgga parts = some loc ∧
      ((parts.getD 3 [] = [] ∨ parseRat (parts.getD 2 []) = none) →
        loc.latitude = none) ∧
      ((parts.getD 5 [] = [] ∨ parseRat (parts.getD 4 []) = none) →
        loc.longitude = none) ∧
      (parseU8 (parts.getD 6 []) = none → loc.fix_quality = none) ∧
      (parseU8 (parts.getD 7 []) = none → loc.satellites = none) ∧
      (parseRat (parts.getD 9 []) = none → loc.altitude = none) := by
  unfold GnssParser.parseGpgga
  rw [if_neg (by omega)]
  refine ⟨_, rfl, ?_, ?_, ?_, ?_, ?_⟩
  · intro hc
    rw [GnssParser.setAltitude_latitude, GnssParser.setSatellites_latitude,
      GnssParser.setFixQuality_latitude, GnssParser.setLongitude_latitude,
      GnssParser.setLatitude_keeps _ _ _ hc, GnssParser.setTimestamp_latitude]
  · intro hc
    rw [GnssParser.setAltitude_longitude, GnssParser.setSatellites_longitude,
      GnssParser.setFixQuality_longitude,
      GnssParser.setLongitude_keeps _ _ _ hc, GnssParser.setLatitude_longitude,
      GnssParser.setTimestamp_longitude]
  · intro hc
    rw [GnssParser.setAltitude_fix, GnssParser.setSatellites_fix,
      GnssParser.setFixQuality_keeps _ _ hc, GnssParser.setLongitude_fix,
      GnssParser.setLatitude_fix, GnssParser.setTimestamp_fix]
  · intro hc
    rw [GnssParser.setAltitude_sats, GnssParser.setSatellites_keeps _ _ hc,
      GnssParser.setFixQuality_sats, GnssParser.setLongitude_sats,
      GnssParser.setLatitude_sats, GnssParser.setTimestamp_sats]
  · intro hc
    rw [GnssParser.setAltitude_keeps _ _ hc, GnssParser.setSatellites_alt,
      GnssParser.setFixQuality_alt, GnssParser.setLongitude_alt,
      GnssParser.setLatitude_alt, GnssParser.setTimestamp_alt]

/-- Witness for C10 at the all-empty 15-field GGA sentence. -/
theorem c10_witness : (GnssParser.parseGpgga emptyGgaParts).isSome = true := by
  obtain ⟨loc, hl, _⟩ := c10 emptyGgaParts (by decide)
  rw [hl]
  rfl

/-! ## Claim C4 -/

/-- Claim C4 fails as stated: the GPS sentence parser's RMC branch performs
no validity check at all — the concrete sentence with flag `"V"` still
yields a message. -/
theorem c4_counterexample :
    ¬ claimC4 ∧ (parseGpsSentence 0 rmcInvalidSentence).isSome = true := by
  constructor
  · intro h
    have h2 := (h 0 rmcInvalidSentence (by decide) (by decide) (by decide)
      (by decide)).2
    have h3 : (parseGpsSentence 0 rmcInvalidSentence).isSome = true := by decide
    rw [h2] at h3
    cases h3
  · decide

/-- Claim C4, amended: the GNSS parser's RMC branch returns a message
exactly when the validity flag (field 2) equals `"A"` — any other value
yields `None`, not an error — but the GPS sentence parser performs no
validity check and returns a message carrying the raw flag (here `"V"`)
verbatim in its `status` field. -/
theorem c4_amended :
    (∀ parts : List (List Char), 12 ≤ parts.length →
      parts.getD 2 [] ≠ chars "A" → GnssParser.parseGprmc parts = none) ∧
    (∀ parts : List (List Char), 12 ≤ parts.length →
      parts.getD 2 [] = chars "A" →
      (GnssParser.parseGprmc parts).isSome = true) ∧
    GnssParser.parseSentence rmcInvalidSentence = none ∧
    ((parseGpsSentence 0 rmcInvalidSentence).map
      (fun m => m.getData (chars "status"))) = some (some (chars "V")) := by
  refine ⟨?_, ?_, ?_, ?_⟩
  · intro parts h12 hA
    unfold GnssParser.parseGprmc
    rw [if_neg (by omega), if_pos hA]
  · intro parts h12 hA
    unfold GnssParser.parseGprmc
    rw [if_neg (by omega), if_neg (fun hc => hc hA)]
    rfl
  · decide
  · decide

/-- Witness for C4 (amended): the invalid-flag sentence is rejected by the
GNSS RMC parser. -/
theorem c4_amended_witness :
    GnssParser.parseGprmc (splitOnChar ',' rmcInvalidSentence) = none :=
  c4_amended.1 (splitOnChar ',' rmcInvalidSentence) (by decide) (by decide)

/-! ## Claim C8 -/

/-- Claim C8: the identification-sentence parser succeeds exactly when the
input starts with `!` or `$`, splits into at least 6 comma-separated
fields, and its first field contains `AIVDM` or `AIVDO`; on success the
signal quality is 90 when a `*` checksum suffix is present and 70
otherwise; all other inputs yield `none` (the parser is a total
function). -/
theorem c8 (now : ℕ) (s : List Char) :
    ((parseAisSentence now s).isSome = true ↔
      ((startsWithChar '!' s = true ∨ startsWithChar '$' s = true) ∧
        6 ≤ (splitOnChar ',' s).length ∧
        (containsSub (chars "AIVDM") (splitOnChar ',' s).headI = true ∨
          containsSub (chars "AIVDO") (splitOnChar ',' s).headI = true))) ∧
    (∀ m, parseAisSentence now s = some m →
      m.signal_quality = some (if containsChar '*' s = true then 90 else 70)) := by
  by_cases h1 : startsWithChar '!' s = false ∧ startsWithChar '$' s = false
  · rw [show parseAisSentence now s = none from by
      unfold parseAisSentence; rw [if_pos h1]]
    constructor
    · constructor
      · intro hf; cases hf
      · rintro ⟨ha | ha, _, _⟩
        · rw [h1.1] at ha; cases ha
        · rw [h1.2] at ha; cases ha
    · intro m hm; cases hm
  · by_cases h2 : (splitOnChar ',' s).length < 6
    · rw [show parseAisSentence now s = none from by
        unfold parseAisSentence; rw [if_neg h1, if_pos h2]]
      constructor
      · constructor
        · intro hf; cases hf
        · rintro ⟨_, hb, _⟩; omega
      · intro m hm; cases hm
    · by_cases h3 : containsSub (chars "AIVDM") (splitOnChar ',' s).headI = false ∧
        containsSub (chars "AIVDO") (splitOnChar ',' s).headI = false
      · rw [show parseAisSentence now s = none from by
          unfold parseAisSentence; rw [if_neg h1, if_neg h2, if_pos h3]]
        constructor
        · constructor
          · intro hf; cases hf
          · rintro ⟨_, _, hc | hc⟩
            · rw [h3.1] at hc; cases hc
            · rw [h3.2] at hc; cases hc
        · intro m hm; cases hm
      · have hsome : parseAisSentence now s =
          some (((((((((DataMessage.new now (chars "AIS_SENTENCE")
            (chars "AIS_RECEIVER") s).withData
            (chars "sentence_type") (splitOnChar ',' s).headI).withData
            (chars "fragment_count") ((splitOnChar ',' s).getD 1 [])).withData
            (chars "fragment_number") ((splitOnChar ',' s).getD 2 [])).withData
            (chars "message_id") ((splitOnChar ',' s).getD 3 [])).withData
            (chars "channel") ((splitOnChar ',' s).getD 4 [])).withData
            (chars "payload") ((splitOnChar ',' s).getD 5 [])).withData
            (chars "timestamp") (natToChars now)).withSignalQuality
            (if containsChar '*' s then 90 else 70)) := by
          unfold parseAisSentence
          rw [if_neg h1, if_neg h2, if_neg h3]
        rw [hsome]
        constructor
        · constructor
          · intro _
            refine ⟨?_, by omega, ?_⟩
            · rcases Bool.eq_false_or_eq_true (startsWithChar '!' s) with hb | hb
              · exact Or.inl hb
              · rcases Bool.eq_false_or_eq_true (startsWithChar '$' s) with hb2 | hb2
                · exact Or.inr hb2
                · exact absurd ⟨hb, hb2⟩ h1
            · rcases Bool.eq_false_or_eq_true
                (containsSub (chars "AIVDM") (splitOnChar ',' s).headI) with hb | hb
              · exact Or.inl hb
              · rcases Bool.eq_false_or_eq_true
                  (containsSub (chars "AIVDO") (splitOnChar ',' s).headI) with hb2 | hb2
                · exact Or.inr hb2
                · exact absurd ⟨hb, hb2⟩ h3
          · intro _; rfl
        · intro m hm
          have hmm := Option.some.inj hm
          rw [← hmm]
          unfold DataMessage.withSignalQuality
          split <;> rfl

/-- Witness for C8 at a concrete well-formed sentence with checksum. -/
theorem c8_witness : (parseAisSentence 0 aisDemo).isSome = true :=
  (c8 0 aisDemo).1.mpr ⟨Or.inl (by decide), by decide, Or.inl (by decide)⟩

/-! ## Claim C9 -/

theorem startsWithStr_false_of_head (c : Char) (p s : List Char)
    (h : startsWithChar c s = false) : startsWithStr (c :: p) s = false := by
  cases s with
  | nil => rfl
  | cons a t =>
    unfold startsWithChar at h
    unfold startsWithStr
    have hca : (c == a) = false := by
      rw [beq_eq_false_iff_ne] at h ⊢
      exact fun e => h e.symm
    rw [hca, Bool.false_and]

/-- Claim C9: on any input that does not begin with the expected prefix
(`$`, or `!` for identification sentences), every sentence parser —
identification, GPS position, GNSS position, radar — totally computes
`none` rather than erring. -/
theorem c9 (now : ℕ) (s : List Char)
    (hd : startsWithChar '$' s = false) (hb : startsWithChar '!' s = false) :
    parseAisSentence now s = none ∧ parseGpsSentence now s = none ∧
    parseRadarSentence now s = none ∧ GnssParser.parseSentence s = none := by
  refine ⟨?_, ?_, ?_, ?_⟩
  · unfold parseAisSentence
    rw [if_pos ⟨hb, hd⟩]
  · unfold parseGpsSentence
    rw [if_pos hd]
  · have h1 : startsWithStr (chars "$RADTG") s = false := by
      rw [show chars "$RADTG" = '$' :: chars "RADTG" from rfl]
      exact startsWithStr_false_of_head '$' _ s hd
    have h2 : startsWithStr (chars "$RADSC") s = false := by
      rw [show chars "$RADSC" = '$' :: chars "RADSC" from rfl]
      exact startsWithStr_false_of_head '$' _ s hd
    have h3 : startsWithStr (chars "$RADCF") s = false := by
      rw [show chars "$RADCF" = '$' :: chars "RADCF" from rfl]
      exact startsWithStr_false_of_head '$' _ s hd
    have h4 : startsWithStr (chars "$RADST") s = false := by
      rw [show chars "$RADST" = '$' :: chars "RADST" from rfl]
      exact startsWithStr_false_of_head '$' _ s hd
    unfold parseRadarSentence
    rw [if_neg (by simp [h1]), if_neg (by simp [h2]), if_neg (by simp [h3]),
      if_neg (by simp [h4])]
  · unfold GnssParser.parseSentence
    rw [if_pos (Or.inr hd)]

/-- A sentence with no `$`/`!` prefix at all. -/
def junkSentence : List Char := chars "AIVDM,1,1,,A,x,y"

/-- Witness for C9 at a concrete prefix-less input. -/
theorem c9_witness :
    parseAisSentence 0 junkSentence = none ∧
    parseGpsSentence 0 junkSentence = none ∧
    parseRadarSentence 0 junkSentence = none ∧
    GnssParser.parseSentence junkSentence = none :=
  c9 0 junkSentence (by decide) (by decide)
